import Mathlib

/-!
Verification of the goprof profiling library: a shallow embedding of the
session state machine (`hooks.go`: `doStartProfiling`, `doStopProfiling`,
`startProfiling`, `stopProfiling`, `cancelAutoStop`, the autostop watcher)
and of the HTTP-layer decisions that the claims are about
(`downloadProfile`'s session-in-use guard and `packProfiles`' launcher-script
heuristic).

Go functions are translated to explicit state passing.  The collector
bindings (`startFxn`, `stopFxn`, `dumpFxn`) are injected in the source and
mocked in its tests; here their behaviour is a configuration record of
failure flags, and every invocation of a binding, every filesystem action
and every logged message is recorded in an event list, so that claims of
the form "binding X was invoked exactly once with argument d" can be stated
as facts about the event trace.
-/

namespace Goprof

/-- `profName` from hooks.go: `type profName string` with seven constants. -/
abbrev ProfName := String

def profileCPU : ProfName := "cpu"
def profileTrace : ProfName := "trace"
def profileGoroutine : ProfName := "goroutine"
def profileThreadcreate : ProfName := "threadcreate"
def profileHeap : ProfName := "heap"
def profileBlock : ProfName := "block"
def profileAll : ProfName := "all"

/-- `profName.OneOff` from hooks.go: true for the snapshot ("instantaneous")
kinds goroutine/threadcreate/heap/block, false otherwise. -/
def oneOff (p : ProfName) : Bool :=
  p == profileGoroutine || p == profileThreadcreate || p == profileHeap || p == profileBlock

/-- `prof` struct from hooks.go. Timestamps are modelled by a `Nat` logical
clock (a fresh value taken from the machine state at each `time.Now()`);
`Duration` is `time.Since(Start)`, i.e. clock difference. -/
structure Prof where
  prof : ProfName
  dir : String
  start : Nat
  duration : Nat
  deriving Repr, DecidableEq

/-- The package-level mutable state of hooks.go:
`ourCurrentProfile`, `ourWrittenProfiles`, the autostop watcher
(`ourCancelAutostop` channel plus its goroutine, modelled as the flag
`armed`: true while a watcher goroutine is waiting on its timer), a model of
the filesystem's set of existing temp directories (for `ioutil.TempDir` /
`os.RemoveAll`), a counter supplying the unique suffix `TempDir` appends,
and the logical clock. -/
structure ProfState where
  current : Option Prof
  written : List Prof
  armed : Bool
  dirs : List String
  nextId : Nat
  clock : Nat
  deriving Repr, DecidableEq

/-- The initial state: no active profile, empty history, no watcher. -/
def initState : ProfState :=
  { current := none, written := [], armed := false, dirs := [], nextId := 0, clock := 0 }

/-- Observable actions: collector-binding invocations, filesystem actions,
watcher arming/cancelling (the arm event records the `maxProfilingDuration`
the watcher is armed for, in nanoseconds as Go's `time.Duration`), and
logged messages. -/
inductive Event where
  | createDir (dir : String)
  | removeDir (dir : String)
  | beginTrace (dir : String)
  | stopTrace
  | beginCPU (dir : String)
  | stopCPU
  | dump (profile : ProfName) (dir : String)
  | armAutostop (maxDuration : Nat)
  | cancelAutostop
  | statFile (path : String)
  | readDir (path : String)
  | logged (msg : String)
  deriving Repr, DecidableEq

/-- Behaviour of the injected collector bindings (the source injects
`startFxn`/`stopFxn`/`dumpFxn` values; its tests use mocks returning a
constant error or nil).  A flag set means that binding returns a non-nil
error. `stopFxn` has no error channel in the source, so stops always
succeed. -/
structure Cfg where
  traceBeginFails : Bool
  cpuBeginFails : Bool
  dumpFails : Bool
  deriving Repr, DecidableEq

/-- `defautMaxProfilingDuration = 5 * time.Minute` from hooks.go, in
nanoseconds (Go `time.Duration` units). -/
def defautMaxProfilingDuration : Nat := 5 * 60 * 1000000000

/-- `profilingInProgress` from hooks.go: `ourCurrentProfile != nil`. -/
def profilingInProgress (s : ProfState) : Bool :=
  s.current.isSome

/-- Model of `ioutil.TempDir("", "prof-" ++ profile)`: a fresh unique
directory whose basename is the pattern followed by a unique suffix. -/
def tempDirName (profile : ProfName) (id : Nat) : String :=
  "/tmp/prof-" ++ profile ++ toString id

/-- The deferred cleanup in `doStartProfiling` that runs when a begin
binding failed: stop the trace writer for trace/all, stop the CPU sampler
for cpu/all, clear `ourCurrentProfile`, `os.RemoveAll` the temp directory,
log the failure. -/
def startUnwind (profile : ProfName) (dir : String) (s : ProfState) :
    ProfState × List Event :=
  ({ s with current := none, dirs := s.dirs.filter (fun d => d ≠ dir) },
   (if profile == profileTrace || profile == profileAll then [Event.stopTrace] else [])
   ++ (if profile == profileCPU || profile == profileAll then [Event.stopCPU] else [])
   ++ [Event.removeDir dir, Event.logged "Failed to start writing profiles"])

/-- `doStartProfiling` from hooks.go, with the injected bindings replaced by
`cfg` (mock behaviour) and their invocations recorded as events.  Returns
(`profilesDirectory`, error message or none) as the Go pair
`(profilesDirectory string, err error)`, the new state, and the event
trace.  `ioutil.TempDir` is modelled as never failing. -/
def doStartProfiling (cfg : Cfg) (profile : ProfName) (maxProfilingDuration : Nat)
    (s : ProfState) : (String × Option String) × ProfState × List Event :=
  if profilingInProgress s then
    (("", some "cannot start profiling, since it's already started"), s, [])
  else
    let profilesDir := tempDirName profile s.nextId
    let s1 : ProfState :=
      { s with dirs := s.dirs ++ [profilesDir], nextId := s.nextId + 1 }
    if oneOff profile then
      if cfg.dumpFails then
        (("", some "failed to write heap profile: test"), s1,
         [Event.createDir profilesDir, Event.dump profile profilesDir])
      else
        ((profilesDir, none),
         { s1 with
            written := s1.written ++ [⟨profile, profilesDir, s1.clock, 0⟩],
            clock := s1.clock + 1 },
         [Event.createDir profilesDir, Event.dump profile profilesDir])
    else
      if (profile == profileTrace || profile == profileAll) && cfg.traceBeginFails then
        let (s2, unwindEvs) := startUnwind profile profilesDir s1
        (("", some "test"), s2,
         [Event.createDir profilesDir, Event.beginTrace profilesDir] ++ unwindEvs)
      else
        if (profile == profileCPU || profile == profileAll) && cfg.cpuBeginFails then
          let (s2, unwindEvs) := startUnwind profile profilesDir s1
          (("", some "test"), s2,
           [Event.createDir profilesDir]
           ++ (if profile == profileTrace || profile == profileAll then
                 [Event.beginTrace profilesDir] else [])
           ++ [Event.beginCPU profilesDir] ++ unwindEvs)
        else
          ((profilesDir, none),
           { s1 with
              armed := true,
              current := some ⟨profile, profilesDir, s1.clock, 0⟩,
              clock := s1.clock + 1 },
           [Event.createDir profilesDir]
           ++ (if profile == profileTrace || profile == profileAll then
                 [Event.beginTrace profilesDir] else [])
           ++ (if profile == profileCPU || profile == profileAll then
                 [Event.beginCPU profilesDir] else [])
           ++ [Event.armAutostop maxProfilingDuration,
               Event.logged "Start writing profiles"])

/-- `cancelAutoStop` from hooks.go: non-blocking send on the single-slot
cancellation channel; a waiting watcher receives it and exits, otherwise
nothing happens. -/
def cancelAutoStop (s : ProfState) : ProfState × List Event :=
  ({ s with armed := false }, [Event.cancelAutostop])

/-- `doStopProfiling` from hooks.go, bindings replaced by `cfg`, invocations
recorded as events.  Returns `profilesDirectory` (empty string when not
profiling), the new state and the event trace. -/
def doStopProfiling (cfg : Cfg) (s : ProfState) :
    String × ProfState × List Event :=
  let (s0, cancelEvs) := cancelAutoStop s
  match s0.current with
  | none => ("", s0, cancelEvs)
  | some p =>
      let dumpEvs :=
        if p.prof == profileAll then
          [Event.dump profileHeap p.dir]
          ++ (if cfg.dumpFails then [Event.logged "Failed to write heap profile"] else [])
        else []
      let stopEvs :=
        (if p.prof == profileCPU || p.prof == profileAll then [Event.stopCPU] else [])
        ++ (if p.prof == profileTrace || p.prof == profileAll then [Event.stopTrace] else [])
      (p.dir,
       { s0 with
          written := s0.written ++ [{ p with duration := s0.clock - p.start }],
          current := none,
          clock := s0.clock + 1 },
       cancelEvs ++ dumpEvs ++ stopEvs ++ [Event.logged "Stop writing profiles"])

/-- `startProfiling` from hooks.go: validates the kind against the seven
known constants, then calls `doStartProfiling` with the default five-minute
maximum duration and the real bindings. -/
def startProfiling (cfg : Cfg) (profile : ProfName) (s : ProfState) :
    (String × Option String) × ProfState × List Event :=
  if profile == profileCPU || profile == profileTrace || profile == profileGoroutine
      || profile == profileThreadcreate || profile == profileHeap
      || profile == profileBlock || profile == profileAll then
    doStartProfiling cfg profile defautMaxProfilingDuration s
  else
    (("", some ("unknown profile: " ++ profile)), s, [])

/-- `stopProfiling` from hooks.go: `doStopProfiling` with the real
bindings. -/
def stopProfiling (cfg : Cfg) (s : ProfState) : String × ProfState × List Event :=
  doStopProfiling cfg s

/-- The autostop watcher goroutine body from `doStartProfiling` firing:
when the `time.After(maxProfilingDuration)` branch of its select wins (only
possible while the watcher is still waiting, i.e. `armed`), it takes the
state lock and runs `doStopProfiling` with the same bindings, discarding the
returned directory. -/
def timeoutFire (cfg : Cfg) (s : ProfState) : ProfState × List Event :=
  if s.armed then
    let r := doStopProfiling cfg s
    (r.2.1, r.2.2)
  else
    (s, [])

/-- Outcome of the `downloadProfile` HTTP handler (part_000).  `fatalError`
and `flashError` both answer HTTP 400; a successful archive stream answers
200. -/
inductive DlOutcome where
  | missingPath
  | sessionInUse
  | statError
  | notDirectory
  | served
  deriving Repr, DecidableEq

/-- Filesystem facts the download handler consults: whether `os.Stat`
succeeds on a path and whether the path is a directory. -/
structure Fsys where
  statOk : String → Bool
  isDir : String → Bool

/-- `downloadProfile` from part_000, lines 202-238: reject a missing `path`
param (400); under the read lock reject a path equal to the active
session's directory (400, session in use) before touching the filesystem;
then `os.Stat` the path, require a directory, and pack and stream the
archive (reading the directory's children).  Packing and streaming are
summarized by the `readDir` event and a 200 outcome: no claim depends on
their internal failure modes.  Returns (HTTP status, outcome) and the trace
of filesystem reads performed. -/
def downloadProfile (fs : Fsys) (s : ProfState) (path : String) :
    (Nat × DlOutcome) × List Event :=
  if path == "" then
    ((400, DlOutcome.missingPath), [])
  else if (match s.current with | some p => p.dir == path | none => false) then
    ((400, DlOutcome.sessionInUse), [])
  else if !(fs.statOk path) then
    ((400, DlOutcome.statError), [Event.statFile path])
  else if !(fs.isDir path) then
    ((400, DlOutcome.notDirectory), [Event.statFile path])
  else
    ((200, DlOutcome.served), [Event.statFile path, Event.readDir path])

/-- Go `strings.HasPrefix(s, prefix)`: whether `s` begins with `prefix`,
compared character by character. -/
def hasPrefix (s pre : String) : Bool :=
  List.isPrefixOf pre.toList s.toList

/-- The launcher-script condition of `packProfiles` (part_000, line 264),
translated verbatim from the source with `dirname = filepath.Base(profilesDir)`
and `numChildren = len(children)`:
`!strings.HasPrefix("prof-all", dirname) && !strings.HasPrefix("prof-trace", dirname) && len(children) == 1`.
Note the source passes the literals as the string and `dirname` as the
prefix, so it tests whether `dirname` is a prefix of the literals, not the
converse. -/
def includeShowWebScript (dirname : String) (numChildren : Nat) : Bool :=
  !(hasPrefix "prof-all" dirname) && !(hasPrefix "prof-trace" dirname)
    && numChildren == 1

/-- The launcher-script condition as the spec words it (for comparison with
the source's `includeShowWebScript`): include the script exactly when the
directory holds exactly one artifact and the directory's name does not carry
a `prof-all`/`prof-trace` prefix. -/
def includeShowWebScriptPerSpec (dirname : String) (numChildren : Nat) : Bool :=
  !(hasPrefix dirname "prof-all") && !(hasPrefix dirname "prof-trace")
    && numChildren == 1

/-- C1: the claim says a single-artifact directory whose basename carries a
`prof-trace` (or `prof-all`) prefix gets no launcher script.  The source
swaps the `strings.HasPrefix` arguments, so for the basename
`prof-trace123456` (the shape `ioutil.TempDir` actually produces for a trace
session, which holds exactly one artifact) `packProfiles` does include the
launcher script, while the spec's condition excludes it. -/
theorem packProfiles_includes_launcher_for_trace_dir :
    includeShowWebScript "prof-trace123456" 1 = true ∧
      includeShowWebScriptPerSpec "prof-trace123456" 1 = false := by
  constructor <;> decide

/-- C6: `stop()` from `Idle` returns an empty path (and has no error
channel at all), changes neither the active-session slot nor the history,
and a second `stop()` immediately after again returns an empty path. -/
theorem stopProfiling_idle_noop (cfg : Cfg) (s : ProfState)
    (hIdle : s.current = none) :
    (stopProfiling cfg s).1 = "" ∧
      (stopProfiling cfg s).2.1.current = s.current ∧
      (stopProfiling cfg s).2.1.written = s.written ∧
      (stopProfiling cfg (stopProfiling cfg s).2.1).1 = "" := by
  simp [stopProfiling, doStopProfiling, cancelAutoStop, hIdle]

/-- Witness for C6 at a concrete state and configuration. -/
theorem stopProfiling_idle_noop_witness :
    (stopProfiling ⟨false, false, false⟩ initState).1 = "" ∧
      (stopProfiling ⟨false, false, false⟩ initState).2.1.current = initState.current ∧
      (stopProfiling ⟨false, false, false⟩ initState).2.1.written = initState.written ∧
      (stopProfiling ⟨false, false, false⟩
        (stopProfiling ⟨false, false, false⟩ initState).2.1).1 = "" :=
  stopProfiling_idle_noop ⟨false, false, false⟩ initState rfl

/-- C7: `start(kind)` with a string that is none of the seven known profile
kinds fails with an "unknown profile" error and an empty directory, leaves
the whole state untouched (so the machine stays `Idle`, the slot and the
history unchanged, no directory created), and performs no binding
invocation or filesystem action at all. -/
theorem startProfiling_unknown_kind (cfg : Cfg) (p : ProfName) (s : ProfState)
    (hp : p ∉ (["cpu", "trace", "goroutine", "threadcreate", "heap", "block", "all"]
      : List String)) :
    (startProfiling cfg p s).1.1 = "" ∧
      (startProfiling cfg p s).1.2 = some ("unknown profile: " ++ p) ∧
      (startProfiling cfg p s).2.1 = s ∧
      (startProfiling cfg p s).2.2 = [] := by
  simp only [List.mem_cons, List.not_mem_nil, or_false, not_or] at hp
  obtain ⟨h1, h2, h3, h4, h5, h6, h7⟩ := hp
  simp [startProfiling, profileCPU, profileTrace, profileGoroutine, profileThreadcreate,
    profileHeap, profileBlock, profileAll, h1, h2, h3, h4, h5, h6, h7]

/-- Witness for C7 at the concrete unknown kind "bogus". -/
theorem startProfiling_unknown_kind_witness :
    (startProfiling ⟨false, false, false⟩ "bogus" initState).1.1 = "" ∧
      (startProfiling ⟨false, false, false⟩ "bogus" initState).1.2
        = some ("unknown profile: " ++ "bogus") ∧
      (startProfiling ⟨false, false, false⟩ "bogus" initState).2.1 = initState ∧
      (startProfiling ⟨false, false, false⟩ "bogus" initState).2.2 = [] :=
  startProfiling_unknown_kind ⟨false, false, false⟩ "bogus" initState (by decide)

/-- C8: a download request whose (nonempty) target path equals the active
session's directory is rejected with HTTP 400 and the session-in-use
outcome, with an empty filesystem trace: no stat, no directory listing, no
archive construction happens before or after the eligibility check. -/
theorem downloadProfile_active_session_rejected (fs : Fsys) (s : ProfState)
    (p : Prof) (hCur : s.current = some p) (hPath : p.dir ≠ "") :
    downloadProfile fs s p.dir = ((400, DlOutcome.sessionInUse), []) := by
  simp [downloadProfile, hCur, hPath]

/-- Witness for C8: the state right after a successful `start("all")` from
the initial state, queried for that session's directory. -/
theorem downloadProfile_active_session_rejected_witness :
    downloadProfile ⟨fun _ => true, fun _ => true⟩
      { initState with
          current := some ⟨profileAll, "/tmp/prof-all0", 0, 0⟩,
          armed := true, dirs := ["/tmp/prof-all0"], nextId := 1, clock := 1 }
      "/tmp/prof-all0" = ((400, DlOutcome.sessionInUse), []) :=
  downloadProfile_active_session_rejected ⟨fun _ => true, fun _ => true⟩
    { initState with
        current := some ⟨profileAll, "/tmp/prof-all0", 0, 0⟩,
        armed := true, dirs := ["/tmp/prof-all0"], nextId := 1, clock := 1 }
    ⟨profileAll, "/tmp/prof-all0", 0, 0⟩ rfl (by decide)

/-- C4: for every instantaneous kind (goroutine/threadcreate/heap/block),
when the snapshot binding succeeds, `start(kind)` performs exactly a
directory creation and one snapshot-binding invocation with that kind and
the freshly created directory, returns that directory with no error,
appends one completed session to the history, and the machine is `Idle`
right after with no watcher armed (it never transitions to `Active`). -/
theorem startProfiling_instantaneous_spec (cfg : Cfg) (p : ProfName) (s : ProfState)
    (hOne : oneOff p = true) (hDump : cfg.dumpFails = false)
    (hIdle : s.current = none) :
    (startProfiling cfg p s).1 = (tempDirName p s.nextId, none) ∧
      (startProfiling cfg p s).2.2
        = [Event.createDir (tempDirName p s.nextId),
           Event.dump p (tempDirName p s.nextId)] ∧
      (startProfiling cfg p s).2.2.count (Event.dump p (tempDirName p s.nextId)) = 1 ∧
      (startProfiling cfg p s).2.1.written
        = s.written ++ [⟨p, tempDirName p s.nextId, s.clock, 0⟩] ∧
      (startProfiling cfg p s).2.1.current = none ∧
      (startProfiling cfg p s).2.1.armed = s.armed := by
  have hp : p = profileGoroutine ∨ p = profileThreadcreate ∨ p = profileHeap
      ∨ p = profileBlock := by
    simp only [oneOff, Bool.or_eq_true, beq_iff_eq] at hOne
    tauto
  rcases hp with hp | hp | hp | hp <;> subst hp <;>
    simp [startProfiling, doStartProfiling, profilingInProgress, oneOff, hIdle, hDump,
      profileGoroutine, profileThreadcreate, profileHeap, profileBlock, profileCPU,
      profileTrace, profileAll, List.count_cons]

/-- Witness for C4: `start("heap")` from the initial state with a
succeeding snapshot binding. -/
theorem startProfiling_instantaneous_spec_witness :
    (startProfiling ⟨false, false, false⟩ profileHeap initState).1
        = (tempDirName profileHeap initState.nextId, none) ∧
      (startProfiling ⟨false, false, false⟩ profileHeap initState).2.2
        = [Event.createDir (tempDirName profileHeap initState.nextId),
           Event.dump profileHeap (tempDirName profileHeap initState.nextId)] ∧
      (startProfiling ⟨false, false, false⟩ profileHeap initState).2.2.count
        (Event.dump profileHeap (tempDirName profileHeap initState.nextId)) = 1 ∧
      (startProfiling ⟨false, false, false⟩ profileHeap initState).2.1.written
        = initState.written
          ++ [⟨profileHeap, tempDirName profileHeap initState.nextId, initState.clock, 0⟩] ∧
      (startProfiling ⟨false, false, false⟩ profileHeap initState).2.1.current = none ∧
      (startProfiling ⟨false, false, false⟩ profileHeap initState).2.1.armed
        = initState.armed :=
  startProfiling_instantaneous_spec ⟨false, false, false⟩ profileHeap initState
    rfl rfl rfl

/-- C3: if during `start("all")` the trace-begin binding fails, or it
succeeds and the CPU-begin binding fails, then `start` returns an empty
directory and an error, the trace-stop and CPU-stop bindings are each
invoked exactly once (the unwind), the freshly created temporary directory
is removed (a `removeDir` event occurs and the directory no longer exists),
and the machine is left `Idle`. -/
theorem startProfiling_all_begin_failure_unwind (cfg : Cfg) (s : ProfState)
    (hIdle : s.current = none)
    (hFail : cfg.traceBeginFails = true ∨ cfg.cpuBeginFails = true) :
    (startProfiling cfg profileAll s).1.1 = "" ∧
      (startProfiling cfg profileAll s).1.2.isSome = true ∧
      (startProfiling cfg profileAll s).2.2.count Event.stopTrace = 1 ∧
      (startProfiling cfg profileAll s).2.2.count Event.stopCPU = 1 ∧
      Event.removeDir (tempDirName profileAll s.nextId)
        ∈ (startProfiling cfg profileAll s).2.2 ∧
      tempDirName profileAll s.nextId ∉ (startProfiling cfg profileAll s).2.1.dirs ∧
      profilingInProgress (startProfiling cfg profileAll s).2.1 = false := by
  obtain ⟨tb, cb, db⟩ := cfg
  rcases hFail with hF | hF <;> simp only at hF <;> subst hF
  · simp [startProfiling, doStartProfiling, startUnwind, profilingInProgress, oneOff,
      hIdle, profileGoroutine, profileThreadcreate, profileHeap, profileBlock,
      profileCPU, profileTrace, profileAll, List.count_cons, List.mem_filter]
  · cases tb <;>
      simp [startProfiling, doStartProfiling, startUnwind, profilingInProgress, oneOff,
        hIdle, profileGoroutine, profileThreadcreate, profileHeap, profileBlock,
        profileCPU, profileTrace, profileAll, List.count_cons, List.mem_filter]

/-- Witness for C3: trace-begin failing on `start("all")` from the initial
state. -/
theorem startProfiling_all_begin_failure_unwind_witness :
    (startProfiling ⟨true, false, false⟩ profileAll initState).1.1 = "" ∧
      (startProfiling ⟨true, false, false⟩ profileAll initState).1.2.isSome = true ∧
      (startProfiling ⟨true, false, false⟩ profileAll initState).2.2.count
        Event.stopTrace = 1 ∧
      (startProfiling ⟨true, false, false⟩ profileAll initState).2.2.count
        Event.stopCPU = 1 ∧
      Event.removeDir (tempDirName profileAll initState.nextId)
        ∈ (startProfiling ⟨true, false, false⟩ profileAll initState).2.2 ∧
      tempDirName profileAll initState.nextId
        ∉ (startProfiling ⟨true, false, false⟩ profileAll initState).2.1.dirs ∧
      profilingInProgress (startProfiling ⟨true, false, false⟩ profileAll initState).2.1
        = false :=
  startProfiling_all_begin_failure_unwind ⟨true, false, false⟩ initState rfl
    (Or.inl rfl)

/-- C2: a successful `start("all")` followed by `stop()` returns the same
directory from both calls, invokes the trace-stop and CPU-stop bindings
exactly once each across the whole run, invokes the heap-snapshot binding
with kind `heap` and that directory, and leaves `profilingInProgress()`
false — whether or not the heap-snapshot binding reports an error
(`cfg.dumpFails` is unconstrained). -/
theorem startAll_then_stop_spec (cfg : Cfg) (s : ProfState)
    (hIdle : s.current = none)
    (hTrace : cfg.traceBeginFails = false) (hCPU : cfg.cpuBeginFails = false) :
    (startProfiling cfg profileAll s).1.2 = none ∧
      (stopProfiling cfg (startProfiling cfg profileAll s).2.1).1
        = (startProfiling cfg profileAll s).1.1 ∧
      ((startProfiling cfg profileAll s).2.2
        ++ (stopProfiling cfg (startProfiling cfg profileAll s).2.1).2.2).count
          Event.stopTrace = 1 ∧
      ((startProfiling cfg profileAll s).2.2
        ++ (stopProfiling cfg (startProfiling cfg profileAll s).2.1).2.2).count
          Event.stopCPU = 1 ∧
      Event.dump profileHeap (startProfiling cfg profileAll s).1.1
        ∈ (stopProfiling cfg (startProfiling cfg profileAll s).2.1).2.2 ∧
      profilingInProgress (stopProfiling cfg (startProfiling cfg profileAll s).2.1).2.1
        = false := by
  obtain ⟨tb, cb, db⟩ := cfg
  simp only at hTrace hCPU
  subst hTrace hCPU
  cases db <;>
    simp [startProfiling, doStartProfiling, stopProfiling, doStopProfiling,
      cancelAutoStop, profilingInProgress, oneOff, hIdle, profileGoroutine,
      profileThreadcreate, profileHeap, profileBlock, profileCPU, profileTrace,
      profileAll, List.count_append, List.count_cons]

/-- Witness for C2 at the initial state, with a failing heap-snapshot
binding (the stronger branch of the "whether or not" clause). -/
theorem startAll_then_stop_spec_witness :
    (startProfiling ⟨false, false, true⟩ profileAll initState).1.2 = none ∧
      (stopProfiling ⟨false, false, true⟩
          (startProfiling ⟨false, false, true⟩ profileAll initState).2.1).1
        = (startProfiling ⟨false, false, true⟩ profileAll initState).1.1 ∧
      ((startProfiling ⟨false, false, true⟩ profileAll initState).2.2
        ++ (stopProfiling ⟨false, false, true⟩
            (startProfiling ⟨false, false, true⟩ profileAll initState).2.1).2.2).count
          Event.stopTrace = 1 ∧
      ((startProfiling ⟨false, false, true⟩ profileAll initState).2.2
        ++ (stopProfiling ⟨false, false, true⟩
            (startProfiling ⟨false, false, true⟩ profileAll initState).2.1).2.2).count
          Event.stopCPU = 1 ∧
      Event.dump profileHeap (startProfiling ⟨false, false, true⟩ profileAll initState).1.1
        ∈ (stopProfiling ⟨false, false, true⟩
            (startProfiling ⟨false, false, true⟩ profileAll initState).2.1).2.2 ∧
      profilingInProgress (stopProfiling ⟨false, false, true⟩
          (startProfiling ⟨false, false, true⟩ profileAll initState).2.1).2.1
        = false :=
  startAll_then_stop_spec ⟨false, false, true⟩ initState rfl rfl rfl

/-- C5: every successful continuous start (cpu/trace/all) arms the autostop
watcher for the configured maximum duration — the default five minutes in
nanoseconds — and if the watcher fires before a manual stop it behaves
exactly as `doStopProfiling` with the same bindings: identical resulting
state and identical events (same collectors stopped), the completed session
(with its duration) appended to the history, the active-session slot
cleared and the watcher gone. -/
theorem continuous_timeout_acts_as_stop (cfg : Cfg) (p : ProfName) (s : ProfState)
    (hIdle : s.current = none)
    (hCont : p = profileCPU ∨ p = profileTrace ∨ p = profileAll)
    (hTrace : cfg.traceBeginFails = false) (hCPU : cfg.cpuBeginFails = false) :
    (startProfiling cfg p s).1.2 = none ∧
      (startProfiling cfg p s).2.1.armed = true ∧
      Event.armAutostop defautMaxProfilingDuration ∈ (startProfiling cfg p s).2.2 ∧
      defautMaxProfilingDuration = 5 * 60 * 1000000000 ∧
      timeoutFire cfg (startProfiling cfg p s).2.1
        = ((doStopProfiling cfg (startProfiling cfg p s).2.1).2.1,
           (doStopProfiling cfg (startProfiling cfg p s).2.1).2.2) ∧
      (timeoutFire cfg (startProfiling cfg p s).2.1).1.current = none ∧
      (timeoutFire cfg (startProfiling cfg p s).2.1).1.armed = false ∧
      (∃ dur, (timeoutFire cfg (startProfiling cfg p s).2.1).1.written
        = (startProfiling cfg p s).2.1.written
          ++ [⟨p, (startProfiling cfg p s).1.1, s.clock, dur⟩]) := by
  obtain ⟨tb, cb, db⟩ := cfg
  simp only at hTrace hCPU
  subst hTrace hCPU
  rcases hCont with hp | hp | hp <;> subst hp <;> cases db <;>
    simp [startProfiling, doStartProfiling, timeoutFire, doStopProfiling,
      cancelAutoStop, profilingInProgress, oneOff, hIdle, profileGoroutine,
      profileThreadcreate, profileHeap, profileBlock, profileCPU, profileTrace,
      profileAll, defautMaxProfilingDuration]

/-- Witness for C5: `start("cpu")` from the initial state followed by the
watcher firing. -/
theorem continuous_timeout_acts_as_stop_witness :
    (startProfiling ⟨false, false, false⟩ profileCPU initState).1.2 = none ∧
      (startProfiling ⟨false, false, false⟩ profileCPU initState).2.1.armed = true ∧
      Event.armAutostop defautMaxProfilingDuration
        ∈ (startProfiling ⟨false, false, false⟩ profileCPU initState).2.2 ∧
      defautMaxProfilingDuration = 5 * 60 * 1000000000 ∧
      timeoutFire ⟨false, false, false⟩
          (startProfiling ⟨false, false, false⟩ profileCPU initState).2.1
        = ((doStopProfiling ⟨false, false, false⟩
              (startProfiling ⟨false, false, false⟩ profileCPU initState).2.1).2.1,
           (doStopProfiling ⟨false, false, false⟩
              (startProfiling ⟨false, false, false⟩ profileCPU initState).2.1).2.2) ∧
      (timeoutFire ⟨false, false, false⟩
          (startProfiling ⟨false, false, false⟩ profileCPU initState).2.1).1.current
        = none ∧
      (timeoutFire ⟨false, false, false⟩
          (startProfiling ⟨false, false, false⟩ profileCPU initState).2.1).1.armed
        = false ∧
      (∃ dur, (timeoutFire ⟨false, false, false⟩
          (startProfiling ⟨false, false, false⟩ profileCPU initState).2.1).1.written
        = (startProfiling ⟨false, false, false⟩ profileCPU initState).2.1.written
          ++ [⟨profileCPU,
              (startProfiling ⟨false, false, false⟩ profileCPU initState).1.1,
              initState.clock, dur⟩]) :=
  continuous_timeout_acts_as_stop ⟨false, false, false⟩ profileCPU initState rfl
    (Or.inl rfl) rfl rfl

/-- C9: the history is append-only: `start` of any kind (valid or not, any
binding behaviour, any state), `stop`, and a timeout expiry each either
leave `ourWrittenProfiles` unchanged or append exactly one session at its
end; existing entries are never removed, reordered or modified. -/
theorem written_history_append_only (cfg : Cfg) (p : ProfName) (s : ProfState) :
    ((startProfiling cfg p s).2.1.written = s.written ∨
       ∃ x, (startProfiling cfg p s).2.1.written = s.written ++ [x]) ∧
      ((stopProfiling cfg s).2.1.written = s.written ∨
        ∃ x, (stopProfiling cfg s).2.1.written = s.written ++ [x]) ∧
      ((timeoutFire cfg s).1.written = s.written ∨
        ∃ x, (timeoutFire cfg s).1.written = s.written ++ [x]) := by
  have hstop : ∀ t : ProfState, (doStopProfiling cfg t).2.1.written = t.written ∨
      ∃ x, (doStopProfiling cfg t).2.1.written = t.written ++ [x] := by
    intro t
    cases hc : t.current with
    | none => simp [doStopProfiling, cancelAutoStop, hc]
    | some q =>
        exact Or.inr ⟨{ q with duration := t.clock - q.start },
          by simp [doStopProfiling, cancelAutoStop, hc]⟩
  have hstart : ∀ t : ProfState,
      (doStartProfiling cfg p defautMaxProfilingDuration t).2.1.written = t.written ∨
        ∃ x, (doStartProfiling cfg p defautMaxProfilingDuration t).2.1.written
          = t.written ++ [x] := by
    intro t
    cases h1 : profilingInProgress t with
    | true => simp [doStartProfiling, h1]
    | false =>
        cases h2 : oneOff p with
        | false =>
            cases h3 : ((p == profileTrace || p == profileAll) && cfg.traceBeginFails) with
            | true => simp [doStartProfiling, startUnwind, h1, h2, h3]
            | false =>
                cases h4 : ((p == profileCPU || p == profileAll) && cfg.cpuBeginFails) with
                | true => simp [doStartProfiling, startUnwind, h1, h2, h3, h4]
                | false => simp [doStartProfiling, h1, h2, h3, h4]
        | true =>
            cases h3 : cfg.dumpFails with
            | true => simp [doStartProfiling, h1, h2, h3]
            | false =>
                exact Or.inr ⟨⟨p, tempDirName p t.nextId, t.clock, 0⟩,
                  by simp [doStartProfiling, h1, h2, h3]⟩
  refine ⟨?_, ?_, ?_⟩
  · by_cases hv : (p == profileCPU || p == profileTrace || p == profileGoroutine
        || p == profileThreadcreate || p == profileHeap || p == profileBlock
        || p == profileAll) = true
    · simpa [startProfiling, hv] using hstart s
    · simp [startProfiling, hv]
  · simpa [stopProfiling] using hstop s
  · cases ha : s.armed with
    | false => simp [timeoutFire, ha]
    | true => simpa [timeoutFire, ha] using hstop s

end Goprof
